import Mathlib

/-!
Shallow embedding of the bb-runner sandboxed-process lifecycle: the CPU-slot
queue and run dispatch (src/service.rs), child spawning and waiting
(src/local_runner.rs), the PID-1 sandbox setup and the spawn sequence
(src/child.rs), the stack allocator (src/mmaps.rs) and the mount-entry
remount decision (src/mounts.rs, src/child.rs).  Effectful system calls are
modelled by injecting their results as explicit environment fields; each
embedded function also returns the list of actions it performed, so theorems
can speak about what was and was not done on each path.
-/

namespace BbRunner

/-- OS error codes (errno values). -/
abbrev IoErr := Nat

/-- EINVAL, the code `StackMap::new` fails with (src/mmaps.rs:46). -/
def EINVAL : IoErr := 22

/-- The `Error::other("Child failed")` produced by `child_pid1` when the
inner child was killed by a signal (src/child.rs:416), kept distinct from
every errno. -/
def ChildFailedErr : IoErr := 1000

/-- gRPC statuses the runner produces (`tonic::Status`). -/
inductive GStatus where
  | resourceExhausted (msg : String)
  | internal (msg : String)
deriving DecidableEq

/-- `std::process::ExitStatus`: either a normal exit code or death by
signal. -/
inductive ExitStatusM where
  | exited (code : Int)
  | signaled (sig : Nat)
deriving DecidableEq

/-- `ExitStatus::code()`: `none` when the process died by a signal. -/
def ExitStatusM.code : ExitStatusM → Option Int
  | .exited c => some c
  | .signaled _ => none

/-- `ResourceUsage` (src/resource.rs): CPU times in microseconds and the
maximum resident set size in bytes. -/
structure ResourceUsageM where
  utime : Nat
  stime : Nat
  maxrss : Nat
deriving DecidableEq

/-- `ExitResources` (src/resource.rs): exit status plus resource usage. -/
structure ExitResourcesM where
  status : ExitStatusM
  rusage : ResourceUsageM
deriving DecidableEq

/-! ## CPU-slot queue (src/service.rs:31-60)

The `ProcessorQueue` is a `VecDeque<u32>` behind a mutex; the deque is
modelled as a list whose head is the deque's front. -/

/-- `ProcessorQueue::take_cpu` (src/service.rs:36): `pop_front`, failing
with a resource-exhausted status when the deque is empty. -/
def takeCpu : List Nat → Except GStatus (Nat × List Nat)
  | [] => .error (.resourceExhausted "No available concurrency slots")
  | c :: rest => .ok (c, rest)

/-- `ProcessorQueue::give_cpu` (src/service.rs:43): `push_back`. -/
def giveCpu (q : List Nat) (cpu : Nat) : List Nat := q ++ [cpu]

/-- The queue `RunnerService::new` starts with (src/service.rs:52):
`(0..config.num_cpus).collect()`. -/
def initQueue (numCpus : Nat) : List Nat := List.range numCpus

/-! ## spawn_child and the per-request task (src/local_runner.rs:87-139,
src/service.rs:106-121) -/

/-- Results of the fallible filesystem steps of `spawn_child`: creation of
the tmp and home directories and of the stdout/stderr capture files, and
the final `Command::spawn`. -/
structure SpawnChildEnv where
  tmpdirOk : Bool
  homedirOk : Bool
  stdoutFileOk : Bool
  stderrFileOk : Bool
  spawnOk : Bool
deriving DecidableEq

/-- `spawn_child` (src/local_runner.rs:87).  `none` models a panic: the
expression `run.arguments[0]` (src/local_runner.rs:96) indexes the argument
vector before any other step, and panics when the vector is empty.  The
error strings are the ones built at src/local_runner.rs:99-105,138. -/
def spawnChild (args : List String) (env : SpawnChildEnv) :
    Option (Except GStatus Nat) :=
  if args.isEmpty then none
  else if !env.tmpdirOk then some (.error (.internal "Failed to create tmpdir"))
  else if !env.homedirOk then some (.error (.internal "Failed to create homedir"))
  else if !env.stdoutFileOk then some (.error (.internal "Failed to create file"))
  else if !env.stderrFileOk then some (.error (.internal "Failed to create file"))
  else if !env.spawnOk then some (.error (.internal "Failed to spawn child"))
  else some (.ok 1)

/-- The body of the detached per-request task (src/service.rs:106-117),
threading the processor queue explicitly.  `take_cpu` and `spawn_child` are
followed by `?`, so their errors return from the task at once; the result
of `wait_child` is bound without `?`, `give_cpu` runs, and the result is
returned afterwards.  `none` in the first component models the task
panicking (a `JoinError` for the awaiting handler). -/
def childTask (q : List Nat) (args : List String) (env : SpawnChildEnv)
    (waitRes : Except GStatus ExitResourcesM) :
    Option (Except GStatus ExitResourcesM) × List Nat :=
  match takeCpu q with
  | .error e => (some (.error e), q)
  | .ok (processor, q1) =>
    match spawnChild args env with
    | none => (none, q1)
    | some (.error e) => (some (.error e), q1)
    | some (.ok _pid) =>
      let exitResuse := waitRes
      (some exitResuse, giveCpu q1 processor)

/-- What `RunnerService::run` hands back to the RPC layer. -/
inductive RunOutcome where
  | panic
  | ok (exitCode : Int) (hasUsage : Bool)
  | err (s : GStatus)
deriving DecidableEq

/-- `RunnerService::run` after the task completes (src/service.rs:119-140).
A panicked task surfaces as a `JoinError`, mapped to
`Status::internal("No Exit Code")`; a task error becomes exit code 255 in a
success response without resource usage; a signal death (no exit code)
becomes `Status::internal("No Exit Code")`. -/
def runHandler (q : List Nat) (args : List String) (env : SpawnChildEnv)
    (waitRes : Except GStatus ExitResourcesM) : RunOutcome × List Nat :=
  match childTask q args env waitRes with
  | (none, q2) => (.err (.internal "No Exit Code"), q2)
  | (some (.error _), q2) => (.ok 255 false, q2)
  | (some (.ok e), q2) =>
    match e.status.code with
    | some c => (.ok c true, q2)
    | none => (.err (.internal "No Exit Code"), q2)

/-! ## Command::spawn (src/child.rs:92-116)

The spawn sequence is embedded as a function of the injected results of its
system calls; it also returns the actions it performed, in order, so that
theorems can state which cleanup actions do and do not occur on failure
paths.  `killChild` and `reapChild` are in the action alphabet precisely so
their absence is expressible. -/

/-- The actions `Command::spawn` can perform. -/
inductive SpawnAct where
  | pipe2
  | clonePid1
  | dropReadPipe
  | writeUidMap
  | writeSetgroups
  | writeGidMap
  | moveCgroup
  | writeGate
  | killChild
  | reapChild
deriving DecidableEq

/-- Injected results of the system calls `Command::spawn` makes, in source
order: `pipe2`, `clone_pid1`, `write_uid_map`, the two writes inside
`write_gid_map` (first `setgroups`, then `gid_map`), `move_child_cgroup`,
and the release write to the start-gate pipe. -/
structure SpawnEnv where
  pipeRes : Except IoErr Unit
  cloneRes : Except IoErr Nat
  uidMapRes : Except IoErr Unit
  setgroupsRes : Except IoErr Unit
  gidMapRes : Except IoErr Unit
  cgroupRes : Except IoErr Unit
  gateRes : Except IoErr Unit

/-- `Command::spawn` (src/child.rs:92).  Every fallible step is followed by
`?`: an error propagates immediately and nothing further runs.  The source
contains no kill or reap of the cloned PID-1 on any path. -/
def commandSpawn (hasCgroup : Bool) (env : SpawnEnv) :
    Except IoErr Nat × List SpawnAct :=
  match env.pipeRes with
  | .error e => (.error e, [.pipe2])
  | .ok _ =>
  match env.cloneRes with
  | .error e => (.error e, [.pipe2, .clonePid1])
  | .ok pid =>
  match env.uidMapRes with
  | .error e => (.error e, [.pipe2, .clonePid1, .dropReadPipe, .writeUidMap])
  | .ok _ =>
  match env.setgroupsRes with
  | .error e =>
    (.error e, [.pipe2, .clonePid1, .dropReadPipe, .writeUidMap, .writeSetgroups])
  | .ok _ =>
  match env.gidMapRes with
  | .error e =>
    (.error e,
      [.pipe2, .clonePid1, .dropReadPipe, .writeUidMap, .writeSetgroups,
        .writeGidMap])
  | .ok _ =>
  match (if hasCgroup then some env.cgroupRes else none) with
  | some (.error e) =>
    (.error e,
      [.pipe2, .clonePid1, .dropReadPipe, .writeUidMap, .writeSetgroups,
        .writeGidMap, .moveCgroup])
  | some (.ok _) =>
    (match env.gateRes with
     | .error e =>
       (.error e,
         [.pipe2, .clonePid1, .dropReadPipe, .writeUidMap, .writeSetgroups,
           .writeGidMap, .moveCgroup, .writeGate])
     | .ok _ =>
       (.ok pid,
         [.pipe2, .clonePid1, .dropReadPipe, .writeUidMap, .writeSetgroups,
           .writeGidMap, .moveCgroup, .writeGate]))
  | none =>
    match env.gateRes with
    | .error e =>
      (.error e,
        [.pipe2, .clonePid1, .dropReadPipe, .writeUidMap, .writeSetgroups,
          .writeGidMap, .writeGate])
    | .ok _ =>
      (.ok pid,
        [.pipe2, .clonePid1, .dropReadPipe, .writeUidMap, .writeSetgroups,
          .writeGidMap, .writeGate])

/-! ## Remount-readonly pass (src/child.rs:291-329, src/mounts.rs) -/

/-- Linux mount-flag bits, as in `nix::mount::MsFlags`. -/
def MS_RDONLY : Nat := 1

def MS_NOSUID : Nat := 2

def MS_NODEV : Nat := 4

def MS_NOEXEC : Nat := 8

def MS_REMOUNT : Nat := 32

def MS_NOATIME : Nat := 1024

def MS_NODIRATIME : Nat := 2048

def MS_BIND : Nat := 4096

def MS_RELATIME : Nat := 2097152

/-- A mount-table entry as `MntEntWrapper` keeps it (src/mounts.rs:13):
the mount point and the flag set derived from the options string. -/
structure MntEnt where
  mnt_dir : String
  mnt_flags : Nat
deriving DecidableEq

/-- Rust `str::starts_with(pat)`: `pat` is a byte-wise prefix of `s`.
For valid UTF-8 this coincides with character-wise prefix. -/
def strStartsWith (s pat : String) : Bool := pat.data.isPrefixOf s.data

/-- What the remount pass does with one entry. -/
inductive RemountAction where
  | skip
  | remount (flags : Nat)
deriving DecidableEq

/-- The per-entry decision of `remount_all_readonly` (src/child.rs:297):
skip (leave read-write) when `rw_paths.iter().any(|x| ent.mnt_dir.starts_with(x))`,
otherwise bind-remount with the preserved flags OR'd with
`MS_REMOUNT | MS_BIND | MS_RDONLY` (src/child.rs:312). -/
def remountDecision (rw_paths : List String) (ent : MntEnt) : RemountAction :=
  if rw_paths.any (fun x => strStartsWith ent.mnt_dir x) then .skip
  else .remount (ent.mnt_flags ||| (MS_REMOUNT ||| MS_BIND ||| MS_RDONLY))

/-- The whole pass: the decision applied to each mount-table entry, in
table order. -/
def remountAllReadonly (rw_paths : List String) (entries : List MntEnt) :
    List (String × RemountAction) :=
  entries.map fun e => (e.mnt_dir, remountDecision rw_paths e)

/-! ## reset_signals (src/child.rs:258-281) -/

/-- The Linux signals `nix`'s `Signal::iterator()` yields. -/
inductive Sig where
  | sighup | sigint | sigquit | sigill | sigtrap | sigabrt | sigbus | sigfpe
  | sigkill | sigusr1 | sigsegv | sigusr2 | sigpipe | sigalrm | sigterm
  | sigstkflt | sigchld | sigcont | sigstop | sigtstp | sigttin | sigttou
  | sigurg | sigxcpu | sigxfsz | sigvtalrm | sigprof | sigwinch | sigpoll
  | sigpwr | sigsys
deriving DecidableEq

/-- A signal's disposition after `reset_signals` ran. -/
inductive SigDisposition where
  | untouched
  | dfl
  | ign
deriving DecidableEq

/-- The handler of the sigaction named `sadfl` (src/child.rs:263): built
with `SigHandler::SigDfl`. -/
def sadflHandler : SigDisposition := .dfl

/-- The handler of the sigaction named `saign` (src/child.rs:264): the
source builds it with `SigHandler::SigDfl` as well, not `SigIgn`. -/
def saignHandler : SigDisposition := .dfl

/-- The disposition `reset_signals` installs for each signal
(src/child.rs:265-278): `SIGKILL` and `SIGSTOP` are skipped, `SIGTTIN` and
`SIGTTOU` get `saign`'s handler, everything else gets `sadfl`'s. -/
def resetSignalsDisposition (s : Sig) : SigDisposition :=
  match s with
  | .sigkill | .sigstop => .untouched
  | .sigttin | .sigttou => saignHandler
  | _ => sadflHandler

/-- The whole effect of `reset_signals`: parent-death signal, signal mask,
and per-signal dispositions. -/
structure SignalState where
  pdeathsig : Option Sig
  maskCleared : Bool
  disp : Sig → SigDisposition

/-- `reset_signals` (src/child.rs:258): `set_pdeathsig(SIGKILL)`, then
`sigprocmask(SIG_SETMASK, empty)`, then the sigaction loop. -/
def resetSignals : SignalState :=
  { pdeathsig := some .sigkill
    maskCleared := true
    disp := resetSignalsDisposition }

/-! ## wait_child (src/local_runner.rs:40-84)

Each iteration of the wait loop is driven by whichever `select!` branch
fires; the branch for the cancellation token carries the guard
`if !kill_sent`, so it cannot be selected once `kill_sent` is true, and
`kill_sent` is set only when `child.kill()` succeeded.  After the branch,
the iteration polls `try_wait4`. -/

/-- Which `select!` branch fired in one iteration of the wait loop. -/
inductive WBranch where
  | sigchld
  | tick
  | cancel
deriving DecidableEq

/-- The result of the `try_wait4` poll at the end of an iteration. -/
inductive WaitPoll where
  | stillRunning
  | exitedWith (st : ExitStatusM) (ru : ResourceUsageM)
  | waitErr (e : IoErr)
deriving DecidableEq

/-- One iteration of the wait loop: the branch that fired, whether a kill
attempted in the cancel branch would succeed, and what the poll returns. -/
structure WIter where
  branch : WBranch
  killOk : Bool
  poll : WaitPoll
deriving DecidableEq

/-- How a run of the wait loop ends. -/
inductive WaitOutcome where
  | reaped (st : ExitStatusM) (ru : ResourceUsageM)
  | waitFailed
  | stillWaiting
deriving DecidableEq

/-- `true` when the poll found the child still running. -/
def WaitPoll.isRunning : WaitPoll → Bool
  | .stillRunning => true
  | _ => false

/-- The wait loop of `wait_child` (src/local_runner.rs:48-80), run over a
finite schedule of iterations, carrying `kill_sent` and counting the
SIGKILLs actually delivered.  The cancel branch runs only when `kill_sent`
is false (the `if !kill_sent` select guard); a successful kill sets
`kill_sent`.  The loop returns on a reaped child or a wait error and
otherwise keeps polling (`stillWaiting` when the schedule is exhausted). -/
def waitChildGo (killSent : Bool) : List WIter → WaitOutcome × Nat
  | [] => (.stillWaiting, 0)
  | it :: rest =>
    let fired := (it.branch == WBranch.cancel) && !killSent
    let sent := fired && it.killOk
    let killSent1 := killSent || sent
    let count := if sent then 1 else 0
    match it.poll with
    | .exitedWith st ru => (.reaped st ru, count)
    | .waitErr _ => (.waitFailed, count)
    | .stillRunning =>
      let r := waitChildGo killSent1 rest
      (r.1, count + r.2)

/-- `wait_child` starts with `kill_sent = false` (src/local_runner.rs:46). -/
def waitChild (iters : List WIter) : WaitOutcome × Nat :=
  waitChildGo false iters

/-! ## StackMap (src/mmaps.rs:44-81) -/

/-- The sizes `StackMap::new` records. -/
structure StackMapM where
  stack_size : Nat
  mmap_size : Nat
deriving DecidableEq

/-- `StackMap::new` (src/mmaps.rs:44): fail with `EINVAL` when
`stack_size % page_size() != 0`; otherwise map `stack_size + page_size`
bytes (`NonZeroUsize::new` re-checks that this is nonzero). -/
def stackMapNew (page_size stack_size : Nat) : Except IoErr StackMapM :=
  if stack_size % page_size ≠ 0 then .error EINVAL
  else
    let mmap_size := stack_size + page_size
    if mmap_size = 0 then .error EINVAL
    else .ok { stack_size := stack_size, mmap_size := mmap_size }

/-- Page protection of one address of the mapping. -/
inductive Prot where
  | noAccess
  | readWrite
deriving DecidableEq

/-- Protection after `new` alone: `mmap_anonymous` maps the whole region
`PROT_NONE` (src/mmaps.rs:52-59). -/
def protAfterNew (_sm : StackMapM) (_addr : Nat) : Prot := .noAccess

/-- Protection after `as_slice` (src/mmaps.rs:68-81): `mprotect` switches
`[page_size, page_size + stack_size)` to read-write; the low page stays
`PROT_NONE` as the guard page. -/
def protAfterAsSlice (page_size : Nat) (sm : StackMapM) (addr : Nat) : Prot :=
  if page_size ≤ addr ∧ addr < page_size + sm.stack_size then .readWrite
  else .noAccess

/-! ## Resource accounting (src/child.rs:25-29, 452-480) -/

/-- `RSS_MULTIPLIER` (src/child.rs:25): 1 when targeting macOS or iOS,
1024 otherwise. -/
def rssMultiplier (targetMacos targetIos : Bool) : Nat :=
  if targetMacos || targetIos then 1 else 1024

/-- Two's-complement wrap-around of `i64` arithmetic (release-mode Rust). -/
def i64wrap (x : Int) : Int :=
  (x + 9223372036854775808) % 18446744073709551616 - 9223372036854775808

/-- The `as u64` cast of an `i64` value. -/
def u64cast (x : Int) : Nat := (x % 18446744073709551616).toNat

/-- `timeval_to_duration` (src/child.rs:453): microseconds of
`i64::from(tv_sec) * 1_000_000 + i64::from(tv_usec)`, cast `as u64` for
`Duration::from_micros`. -/
def timevalToDuration (tv_sec tv_usec : Int) : Nat :=
  u64cast (i64wrap (i64wrap (tv_sec * 1000000) + tv_usec))

/-- The `maxrss` field built by `wait4` (src/child.rs:476):
`(rusage.ru_maxrss as u64) * RSS_MULTIPLIER`, in wrapping `u64`
arithmetic. -/
def maxrssBytes (ru_maxrss : Int) (multiplier : Nat) : Nat :=
  (u64cast ru_maxrss * multiplier) % 18446744073709551616

/-! ## child_pid1 (src/child.rs:352-417)

The PID-1 body is embedded as a function of the injected results of its
system calls, returning its result and the ordered list of steps it
reached.  The read of the start-gate pipe binds its result to `_`
(src/child.rs:361): the embedding records the field but its value decides
nothing. -/

/-- The steps `child_pid1` can reach, in source order. -/
inductive Pid1Step where
  | setpgid
  | resetSigs
  | gateRead
  | chdirRoot
  | mountPrivate
  | setHostname
  | mountProc
  | remountReadonly
  | netLoopback
  | dupStdout
  | dupStderr
  | closeHighFds
  | spawnCmd
  | closeAllFds
  | waitCmd
  | killSelf
deriving DecidableEq

/-- Injected results of the system calls `child_pid1` makes, in source
order. -/
structure Pid1Env where
  setpgidRes : Except IoErr Unit
  resetSignalsRes : Except IoErr Unit
  gateReadRes : Except IoErr Nat
  chdirRes : Except IoErr Unit
  mountPrivateRes : Except IoErr Unit
  hostname : Option String
  sethostnameRes : Except IoErr Unit
  mountProcRes : Except IoErr Unit
  remountRes : Except IoErr Unit
  netLoRes : Except IoErr Unit
  stdoutFd : Option Nat
  stderrFd : Option Nat
  dup2StdoutRes : Except IoErr Unit
  dup2StderrRes : Except IoErr Unit
  closeHighRes : Except IoErr Unit
  spawnRes : Except IoErr Unit
  closeAllRes : Except IoErr Unit
  waitRes : Except IoErr ExitStatusM
  killSelfRes : Except IoErr Unit

/-- Sequence one mandatory fallible step: record it, stop on error,
otherwise continue. -/
def pstep (res : Except IoErr Unit) (tag : Pid1Step) (tr : List Pid1Step)
    (k : List Pid1Step → Except IoErr Int × List Pid1Step) :
    Except IoErr Int × List Pid1Step :=
  match res with
  | .error e => (.error e, tr ++ [tag])
  | .ok _ => k (tr ++ [tag])

/-- Sequence a step guarded by an `if let Some(..)` in the source: absent
means the step is not taken at all. -/
def poptStep {α : Type} (gate : Option α) (res : Except IoErr Unit)
    (tag : Pid1Step) (tr : List Pid1Step)
    (k : List Pid1Step → Except IoErr Int × List Pid1Step) :
    Except IoErr Int × List Pid1Step :=
  match gate with
  | none => k tr
  | some _ => pstep res tag tr k

/-- `child_pid1` (src/child.rs:352).  The start-gate read's result is
discarded (`let _ = unistd::read(..)`); every other fallible step is
followed by `?`.  After a successful wait, a signal death re-raises the
signal against self and then fails with "Child failed" (the status has no
exit code); a normal exit returns the child's code. -/
def childPid1 (env : Pid1Env) : Except IoErr Int × List Pid1Step :=
  pstep env.setpgidRes .setpgid [] fun tr =>
  pstep env.resetSignalsRes .resetSigs tr fun tr =>
  let _discarded := env.gateReadRes
  let tr := tr ++ [Pid1Step.gateRead]
  pstep env.chdirRes .chdirRoot tr fun tr =>
  pstep env.mountPrivateRes .mountPrivate tr fun tr =>
  poptStep env.hostname env.sethostnameRes .setHostname tr fun tr =>
  pstep env.mountProcRes .mountProc tr fun tr =>
  pstep env.remountRes .remountReadonly tr fun tr =>
  pstep env.netLoRes .netLoopback tr fun tr =>
  poptStep env.stdoutFd env.dup2StdoutRes .dupStdout tr fun tr =>
  poptStep env.stderrFd env.dup2StderrRes .dupStderr tr fun tr =>
  pstep env.closeHighRes .closeHighFds tr fun tr =>
  pstep env.spawnRes .spawnCmd tr fun tr =>
  pstep env.closeAllRes .closeAllFds tr fun tr =>
  match env.waitRes with
  | .error e => (.error e, tr ++ [Pid1Step.waitCmd])
  | .ok (.exited c) => (.ok c, tr ++ [Pid1Step.waitCmd])
  | .ok (.signaled _) =>
    match env.killSelfRes with
    | .error e => (.error e, tr ++ [Pid1Step.waitCmd, Pid1Step.killSelf])
    | .ok _ => (.error ChildFailedErr, tr ++ [Pid1Step.waitCmd, Pid1Step.killSelf])

/-- A `Pid1Env` in which every call succeeds: hostname configured, stdout
and stderr files configured, the sandboxed command exiting 0. -/
def pid1AllOk : Pid1Env :=
  { setpgidRes := .ok ()
    resetSignalsRes := .ok ()
    gateReadRes := .ok 1
    chdirRes := .ok ()
    mountPrivateRes := .ok ()
    hostname := some "localhost"
    sethostnameRes := .ok ()
    mountProcRes := .ok ()
    remountRes := .ok ()
    netLoRes := .ok ()
    stdoutFd := some 3
    stderrFd := some 4
    dup2StdoutRes := .ok ()
    dup2StderrRes := .ok ()
    closeHighRes := .ok ()
    spawnRes := .ok ()
    closeAllRes := .ok ()
    waitRes := .ok (.exited 0)
    killSelfRes := .ok () }

/-! ## Theorems -/

/-- C1: the claim says every Run request that took a CPU slot gives it back
before the response on every path, including spawn failure.  Evaluating the
detached task on a one-slot queue shows the success and wait-failure paths
return the slot, but the spawn-failure path returns from the task via `?`
before `give_cpu`, leaving the queue empty: the slot is lost. -/
theorem run_slot_leak_on_spawn_failure :
    (childTask [0] ["cmd"] ⟨true, true, true, true, false⟩
        (.error (.internal "Wait failed"))).2 = []
    ∧ (childTask [0] ["cmd"] ⟨true, true, true, true, false⟩
        (.error (.internal "Wait failed"))).1 =
        some (.error (.internal "Failed to spawn child"))
    ∧ (childTask [0] ["cmd"] ⟨true, true, true, true, true⟩
        (.ok ⟨.exited 0, ⟨0, 0, 0⟩⟩)).2 = [0]
    ∧ (childTask [0] ["cmd"] ⟨true, true, true, true, true⟩
        (.error (.internal "Wait failed"))).2 = [0] := by
  refine ⟨rfl, rfl, rfl, rfl⟩

/-- C2: the claim says a failed uid-map / gid-map / cgroup write makes
`Command::spawn` SIGKILL and reap the PID-1 before failing.  Evaluating the
spawn sequence with the uid-map write failing (errno 13, EACCES) shows the
error is returned, but no kill and no reap is performed, and the start gate
is never released. -/
theorem spawn_uid_failure_no_kill_eval :
    (commandSpawn true ⟨.ok (), .ok 7, .error 13, .ok (), .ok (), .ok (), .ok ()⟩).1 =
      .error 13
    ∧ (commandSpawn true
        ⟨.ok (), .ok 7, .error 13, .ok (), .ok (), .ok (), .ok ()⟩).2 =
        [.pipe2, .clonePid1, .dropReadPipe, .writeUidMap]
    ∧ ((commandSpawn true
        ⟨.ok (), .ok 7, .error 13, .ok (), .ok (), .ok (), .ok ()⟩).2.contains
        SpawnAct.killChild) = false
    ∧ ((commandSpawn true
        ⟨.ok (), .ok 7, .error 13, .ok (), .ok (), .ok (), .ok ()⟩).2.contains
        SpawnAct.reapChild) = false := by
  refine ⟨rfl, rfl, by decide, by decide⟩

/-- C4: the claim says SIGTTIN and SIGTTOU are set to the ignore
disposition.  The sigaction the source calls `saign` is built with
`SigHandler::SigDfl`, so both get the default disposition instead; the
rest of the claim (defaults everywhere else, SIGKILL/SIGSTOP untouched,
mask cleared, parent-death signal SIGKILL) matches the code. -/
theorem reset_signals_tty_default_eval :
    resetSignals.disp .sigttin = .dfl
    ∧ resetSignals.disp .sigttou = .dfl
    ∧ resetSignals.disp .sigttin ≠ SigDisposition.ign
    ∧ resetSignals.disp .sigkill = .untouched
    ∧ resetSignals.disp .sigstop = .untouched
    ∧ resetSignals.disp .sighup = .dfl
    ∧ resetSignals.disp .sigterm = .dfl
    ∧ resetSignals.pdeathsig = some Sig.sigkill
    ∧ resetSignals.maskCleared = true := by
  refine ⟨rfl, rfl, by decide, rfl, rfl, rfl, rfl, rfl, rfl⟩

/-- C3 counterexample: the claim skips an entry exactly when its mount
point is a prefix of some allow-list path.  With allow-list `["/build"]`
and mount point `"/build/tmp"`, the code skips the entry although the mount
point is a prefix of no allow-list path — the code tests the reverse
direction, `mnt_dir.starts_with(allow_path)`. -/
theorem remount_prefix_direction_cex :
    remountDecision ["/build"] ⟨"/build/tmp", MS_NOSUID⟩ = .skip
    ∧ strStartsWith "/build" "/build/tmp" = false
    ∧ strStartsWith "/build/tmp" "/build" = true := by
  refine ⟨by decide, by decide, by decide⟩

/-- C7 counterexample: the claim says `StackMap::new` rejects every
`stack_size` that is not a positive multiple of the page size, in
particular 0.  With a 4096-byte page, `stack_size = 0` passes the
`stack_size % page_size != 0` test and is accepted: the call returns a
mapping of one page (the guard page alone), not an invalid-argument
error. -/
theorem stack_map_zero_accepted_cex :
    stackMapNew 4096 0 = .ok ⟨0, 4096⟩ := by
  rfl

/-- C8: the processor queue is initialised with the integers `[0, num_cpus)`
in order; `take_cpu` removes and returns the head and fails with the
resource-exhausted status on the empty queue; `give_cpu` appends to the
tail. -/
theorem processor_queue_ops (n c i : Nat) (q rest : List Nat) :
    (initQueue n).length = n
    ∧ (initQueue n)[i]? = (if i < n then some i else none)
    ∧ takeCpu [] = .error (.resourceExhausted "No available concurrency slots")
    ∧ takeCpu (c :: rest) = .ok (c, rest)
    ∧ giveCpu q c = q ++ [c] := by
  refine ⟨List.length_range n, ?_, rfl, rfl, rfl⟩
  simp [initQueue, List.getElem?_range, List.getElem?_eq_none,
    List.length_range]
  split
  · next h => simp [List.getElem?_range h]
  · next h => exact List.getElem?_eq_none (by simpa [List.length_range] using h)

/-- C3 (amended): an entry is skipped (left writable) exactly when some
path in the writable allow-list is a byte-wise string prefix of the entry's
mount point; every other entry is bind-remounted with its preserved flags
OR'd with `MS_REMOUNT | MS_BIND | MS_RDONLY`; the pass applies this
decision to each table entry. -/
theorem remount_decision_amended (rw_paths : List String) (ent : MntEnt) :
    (remountDecision rw_paths ent = .skip ↔
      ∃ x ∈ rw_paths, strStartsWith ent.mnt_dir x = true)
    ∧ (remountDecision rw_paths ent = .skip ∨
      remountDecision rw_paths ent =
        .remount (ent.mnt_flags ||| (MS_REMOUNT ||| MS_BIND ||| MS_RDONLY)))
    ∧ remountAllReadonly rw_paths [ent] =
        [(ent.mnt_dir, remountDecision rw_paths ent)] := by
  refine ⟨?_, ?_, rfl⟩
  · unfold remountDecision
    split
    · next h => simp only [List.any_eq_true] at h; simpa using h
    · next h =>
      simp only [List.any_eq_true] at h
      simpa using h
  · unfold remountDecision
    split
    · exact Or.inl rfl
    · exact Or.inr rfl

/-- C5: handling a Run request never panics the server.  The empty-argument
indexing panic happens inside the detached task; the handler sees it as a
`JoinError` and surfaces it as `Status::internal("No Exit Code")` — an
error status — whenever a slot was available to run the task body.  A
spawn failure that does not panic is surfaced as a success response with
exit code 255. -/
theorem run_never_panics (q : List Nat) (c : Nat) (rest : List Nat)
    (a0 : String) (args : List String) (env : SpawnChildEnv)
    (w : Except GStatus ExitResourcesM) :
    (runHandler q args env w).1 ≠ RunOutcome.panic
    ∧ (runHandler (c :: rest) [] env w).1 = .err (.internal "No Exit Code")
    ∧ (runHandler (c :: rest) (a0 :: args) ⟨true, true, true, true, false⟩ w).1 =
        .ok 255 false := by
  refine ⟨?_, rfl, rfl⟩
  unfold runHandler
  split
  · simp
  · simp
  · split <;> simp

/-- No kill is ever delivered once `kill_sent` is true: the cancel branch
of the wait loop carries the select guard `if !kill_sent`. -/
theorem waitChildGo_true_no_kill (l : List WIter) :
    (waitChildGo true l).2 = 0 := by
  induction l with
  | nil => rfl
  | cons it rest ih =>
    cases hp : it.poll <;> simp [waitChildGo, hp, ih]

/-- From `kill_sent = false`, the whole run delivers at most one kill. -/
theorem waitChildGo_false_le_one (l : List WIter) :
    (waitChildGo false l).2 ≤ 1 := by
  induction l with
  | nil => simp [waitChildGo]
  | cons it rest ih =>
    obtain ⟨b, k, p⟩ := it
    cases b <;> cases k <;> cases p <;>
      simp [waitChildGo, waitChildGo_true_no_kill] <;> exact ih

/-- The loop keeps running exactly while every poll reports the child still
running, whatever `kill_sent` is. -/
theorem waitChildGo_still_iff (l : List WIter) :
    ∀ ks : Bool, ((waitChildGo ks l).1 = .stillWaiting ↔
      l.all (fun it => it.poll.isRunning) = true) := by
  induction l with
  | nil => intro ks; simp [waitChildGo]
  | cons it rest ih =>
    intro ks
    cases hp : it.poll <;>
      simp [waitChildGo, hp, WaitPoll.isRunning, ih]

/-- C6: across all iterations of `wait_child`'s loop, SIGKILL is delivered
to the PID-1 at most once — the cancel branch is select-guarded by
`!kill_sent` and a successful kill sets the flag — and the loop keeps
polling `wait4` precisely until the child is reaped or the wait syscall
fails. -/
theorem wait_child_kill_at_most_once (iters : List WIter) :
    (waitChild iters).2 ≤ 1
    ∧ ((waitChild iters).1 = .stillWaiting ↔
        iters.all (fun it => it.poll.isRunning) = true) :=
  ⟨waitChildGo_false_le_one iters, waitChildGo_still_iff iters false⟩

/-- C7 (amended): `StackMap::new` fails with `EINVAL` exactly when
`stack_size` is not a multiple of the page size; every multiple — including
`stack_size = 0` — is accepted and yields a mapping of
`stack_size + page_size` bytes, wholly `PROT_NONE` after `new`, whose low
page stays a `PROT_NONE` guard page after `as_slice` switches the
remainder to read-write. -/
theorem stack_map_new_amended (page_size stack_size : Nat)
    (hps : 0 < page_size) :
    (stack_size % page_size ≠ 0 →
      stackMapNew page_size stack_size = .error EINVAL)
    ∧ (stack_size % page_size = 0 →
      stackMapNew page_size stack_size = .ok ⟨stack_size, stack_size + page_size⟩)
    ∧ (∀ a, a < page_size →
      protAfterAsSlice page_size ⟨stack_size, stack_size + page_size⟩ a =
        .noAccess)
    ∧ (∀ a, page_size ≤ a → a < page_size + stack_size →
      protAfterAsSlice page_size ⟨stack_size, stack_size + page_size⟩ a =
        .readWrite)
    ∧ (∀ a, protAfterNew ⟨stack_size, stack_size + page_size⟩ a = .noAccess) := by
  refine ⟨?_, ?_, ?_, ?_, fun a => rfl⟩
  · intro h
    simp [stackMapNew, h]
  · intro h
    have hnz : ¬(stack_size + page_size = 0) := by omega
    simp [stackMapNew, h, hnz]
  · intro a ha
    unfold protAfterAsSlice
    rw [if_neg]
    omega
  · intro a ha1 ha2
    unfold protAfterAsSlice
    rw [if_pos]
    exact ⟨ha1, ha2⟩

/-- C7 witness: the amended theorem applied at page size 4096 and stack
size 8192. -/
theorem stack_map_new_amended_witness :
    stackMapNew 4096 8192 = .ok ⟨8192, 12288⟩ :=
  (stack_map_new_amended 4096 8192 (by omega)).2.1 (by omega)

/-- C9: the resource record multiplies the kernel's `ru_maxrss` by 1024 on
Linux (multiplier 1 when targeting macOS or iOS) and converts each timeval
to exactly `tv_sec * 1_000_000 + tv_usec` microseconds, for kernel-shaped
values (non-negative, no 64-bit overflow). -/
theorem resource_usage_conversion (tv_sec tv_usec ru : Int)
    (h1 : 0 ≤ tv_sec) (h2 : 0 ≤ tv_usec)
    (h3 : tv_sec * 1000000 + tv_usec < 9223372036854775808)
    (h4 : 0 ≤ ru) (h5 : ru * 1024 < 18446744073709551616) :
    rssMultiplier false false = 1024
    ∧ rssMultiplier true false = 1
    ∧ rssMultiplier false true = 1
    ∧ (timevalToDuration tv_sec tv_usec : Int) = tv_sec * 1000000 + tv_usec
    ∧ (maxrssBytes ru (rssMultiplier false false) : Int) = ru * 1024 := by
  refine ⟨rfl, rfl, rfl, ?_, ?_⟩
  · unfold timevalToDuration i64wrap u64cast
    omega
  · unfold maxrssBytes u64cast rssMultiplier
    simp only [Bool.or_self, Bool.false_or, if_neg Bool.false_ne_true]
    omega

/-- C9 witness: the conversion theorem applied at
`tv_sec = 3, tv_usec = 500000, ru_maxrss = 2048`. -/
theorem resource_usage_conversion_witness :
    (timevalToDuration 3 500000 : Int) = 3 * 1000000 + 500000
    ∧ (maxrssBytes 2048 (rssMultiplier false false) : Int) = 2048 * 1024 :=
  ⟨(resource_usage_conversion 3 500000 2048 (by omega) (by omega) (by omega)
      (by omega) (by omega)).2.2.2.1,
   (resource_usage_conversion 3 500000 2048 (by omega) (by omega) (by omega)
      (by omega) (by omega)).2.2.2.2⟩

/-- C10: the PID-1 child discards the result of the start-gate pipe read —
`child_pid1` behaves identically whatever that read returns, error or
end-of-file included — and with a failed gate read it still proceeds
through the whole sandbox setup and exits with the child's code rather
than failing. -/
theorem child_gate_read_discarded (env : Pid1Env) (r1 r2 : Except IoErr Nat) :
    childPid1 { env with gateReadRes := r1 } =
      childPid1 { env with gateReadRes := r2 }
    ∧ childPid1 { pid1AllOk with gateReadRes := .error 5 } =
        (.ok 0,
          [.setpgid, .resetSigs, .gateRead, .chdirRoot, .mountPrivate,
            .setHostname, .mountProc, .remountReadonly, .netLoopback,
            .dupStdout, .dupStderr, .closeHighFds, .spawnCmd, .closeAllFds,
            .waitCmd]) :=
  ⟨rfl, rfl⟩

end BbRunner
